import Mathlib

/-!
Verification of the upload-to-API request lifecycle of the gemini_backend
repository (two variants: `src/index.js`, called the "Min" variant below,
and `src/unnamed/part_000`, called the "Full" variant).

The embedding models the filesystem's temp-file store as a list of stored
paths (removal deletes every occurrence of a path, matching the OS view of
a path set), the generation adapter as an injected result value, and each
Express handler as a pure function from the request, an injected read-fault
flag, the adapter outcome and the initial store to a record of: responses
sent, final store, adapter calls made, and a log of successful deletions.
-/

set_option autoImplicit false

namespace GeminiBackend

/-! ## Temporary file store (fs module as used by the handlers) -/

/-- Remove every occurrence of a path from the store: the state of the
store after a successful `fs.unlinkSync`. -/
def removePath (p : String) (fs : List String) : List String :=
  fs.filter (fun q => q != p)

/-- Store a path (multer writing the uploaded file under `dest`). -/
def insertPath (p : String) (fs : List String) : List String :=
  if fs.contains p then fs else p :: fs

/-- Embedding of `fs.existsSync`. -/
def existsSync (p : String) (fs : List String) : Bool :=
  fs.contains p

/-- Embedding of `fs.unlinkSync`: removes the path, raising (modelled as
`Except.error`) when the path does not exist. -/
def unlinkSync (p : String) (fs : List String) : Except String (List String) :=
  if fs.contains p then Except.ok (removePath p fs) else Except.error "ENOENT"

/-- The guarded delete of the catch blocks (index.js lines 108-110,
part_000 lines 123-125): `if (fs.existsSync(path)) fs.unlinkSync(path)`.
Total, hence never raises. -/
def guardedUnlink (p : String) (fs : List String) : List String :=
  if existsSync p fs then removePath p fs else fs

/-- The success-path cleanup of both handlers (index.js line 102,
part_000 line 115): a bare `fs.unlinkSync(req.file.path)` with no
existence check. -/
def successPathCleanup (p : String) (fs : List String) : Except String (List String) :=
  unlinkSync p fs

/-- Embedding of `fs.readFileSync` on a stored upload: returns the stored
bytes when the path exists; the `readOk` flag injects an I/O fault so that
exceptions during the read step can be analysed. -/
def readFileSync (p : String) (contents : List Nat) (fs : List String) (readOk : Bool) :
    Except String (List Nat) :=
  if fs.contains p && readOk then Except.ok contents else Except.error "EIO"

/-! ## Base64 (Buffer.prototype.toString with the base64 encoding) -/

/-- The base64 alphabet in index order. -/
def base64Chars : List Char :=
  "ABCDEFGHIJKLMNOPQRSTUVWXYZabcdefghijklmnopqrstuvwxyz0123456789+/".toList

/-- Character for a 6-bit group. -/
def b64Char (n : Nat) : Char :=
  base64Chars.getD n 'A'

/-- RFC 4648 base64 with padding, the encoding produced by
`imageBuffer.toString("base64")` on a byte sequence. -/
def base64Encode : List Nat → String
  | [] => ""
  | [b1] =>
      String.mk [b64Char (b1 / 4), b64Char (b1 % 4 * 16), '=', '=']
  | [b1, b2] =>
      String.mk [b64Char (b1 / 4), b64Char (b1 % 4 * 16 + b2 / 16),
                 b64Char (b2 % 16 * 4), '=']
  | b1 :: b2 :: b3 :: rest =>
      String.mk [b64Char (b1 / 4), b64Char (b1 % 4 * 16 + b2 / 16),
                 b64Char (b2 % 16 * 4 + b3 / 64), b64Char (b3 % 64)] ++
        base64Encode rest

/-! ## Requests, adapter calls, responses -/

/-- The uploaded file as multer hands it to the handler (`req.file`). -/
structure UFile where
  path : String
  mimetype : String
  size : Nat
  bytes : List Nat
  deriving DecidableEq, Repr

/-- The parts of the request the handlers read: `req.file` and
`req.body.prompt` (absent field modelled as `none`). -/
structure Req where
  file : Option UFile
  prompt : Option String
  deriving DecidableEq, Repr

/-- One content part of a generation request. -/
inductive Part where
  | text (s : String)
  | inlineData (mimeType : String) (data : String)
  deriving DecidableEq, Repr

/-- One invocation of `client.models.generateContent`: the model name and
the ordered parts of the single user content. -/
structure AdapterCall where
  model : String
  parts : List Part
  deriving DecidableEq, Repr

/-- Outcome of the upstream generation call: resolved text, or a rejection
carrying the upstream error message. -/
inductive GenResult where
  | ok (text : String)
  | error (msg : String)
  deriving DecidableEq, Repr

/-- JSON (or raw) response bodies the two variants produce. -/
inductive Body where
  | output (t : String)
  | error (e : String)
  | errorDetails (e d : String)
  | successOutput (t : String)
  | failureError (e : String)
  | raw (s : String)
  deriving DecidableEq, Repr

/-- An HTTP response: status and body. -/
structure Response where
  status : Nat
  body : Body
  deriving DecidableEq, Repr

/-- Observable outcome of one run of an analyze-image handler: the
responses sent, the final temp-file store, the adapter calls made, and the
log of paths successfully deleted (one entry per performed deletion). -/
structure HandlerOut where
  resp : List Response
  fs : List String
  calls : List AdapterCall
  unlinks : List String
  deriving DecidableEq, Repr

/-- JS truthiness of `req.body.prompt || defaultText`: a missing or empty
prompt string falls back to the default. -/
def promptOr (p : Option String) (d : String) : String :=
  match p with
  | none => d
  | some s => if s = "" then d else s

/-- Default instruction of the Full variant (part_000 line 89). -/
def defaultPromptFull : String := "Analyze this image and explain what you see"

/-- Default instruction of the Min variant (index.js line 82). -/
def defaultPromptMin : String := "Analyze this image"

/-! ## The two /analyze-image handlers -/

/-- Catch block of the Full variant (part_000 lines 120-130): guarded
delete of the temp file when present, then a 500 with a fixed body that
does not mention the caught error. -/
def catchFull (fileOpt : Option String) (fs : List String) (calls : List AdapterCall)
    (unlinks : List String) : HandlerOut :=
  match fileOpt with
  | some p =>
      if existsSync p fs then
        { resp := [⟨500, Body.error "Image analysis failed"⟩],
          fs := removePath p fs, calls := calls, unlinks := unlinks ++ [p] }
      else
        { resp := [⟨500, Body.error "Image analysis failed"⟩],
          fs := fs, calls := calls, unlinks := unlinks }
  | none =>
      { resp := [⟨500, Body.error "Image analysis failed"⟩],
        fs := fs, calls := calls, unlinks := unlinks }

/-- Catch block of the Min variant (index.js lines 105-116): guarded
delete, then a 500 whose body carries the caught error's message verbatim
in the `details` field. -/
def catchMin (msg : String) (fileOpt : Option String) (fs : List String)
    (calls : List AdapterCall) (unlinks : List String) : HandlerOut :=
  match fileOpt with
  | some p =>
      if existsSync p fs then
        { resp := [⟨500, Body.errorDetails "Gemini processing failed" msg⟩],
          fs := removePath p fs, calls := calls, unlinks := unlinks ++ [p] }
      else
        { resp := [⟨500, Body.errorDetails "Gemini processing failed" msg⟩],
          fs := fs, calls := calls, unlinks := unlinks }
  | none =>
      { resp := [⟨500, Body.errorDetails "Gemini processing failed" msg⟩],
        fs := fs, calls := calls, unlinks := unlinks }

/-- The POST /analyze-image handler of the Full variant (part_000 lines
79-132), composed with the multer storage step (`upload.single`, which
writes the uploaded file before the handler body runs). `readOk` injects a
read fault, `gen` is the adapter outcome. -/
def analyzeImageFull (req : Req) (readOk : Bool) (gen : GenResult)
    (fs0 : List String) : HandlerOut :=
  let fs1 := match req.file with
             | some f => insertPath f.path fs0
             | none => fs0
  match req.file with
  | none =>
      { resp := [⟨400, Body.error "Image is required"⟩],
        fs := fs1, calls := [], unlinks := [] }
  | some f =>
      let prompt := promptOr req.prompt defaultPromptFull
      match readFileSync f.path f.bytes fs1 readOk with
      | Except.error _ => catchFull (some f.path) fs1 [] []
      | Except.ok bytes =>
          let base64Image := base64Encode bytes
          let call : AdapterCall :=
            ⟨"gemini-2.0-flash", [Part.text prompt, Part.inlineData f.mimetype base64Image]⟩
          match gen with
          | GenResult.error _ => catchFull (some f.path) fs1 [call] []
          | GenResult.ok t =>
              match successPathCleanup f.path fs1 with
              | Except.error _ => catchFull (some f.path) fs1 [call] []
              | Except.ok fs2 =>
                  { resp := [⟨200, Body.output t⟩],
                    fs := fs2, calls := [call], unlinks := [f.path] }

/-- The POST /analyze-image handler of the Min variant (index.js lines
68-118). There is no missing-file check: when `req.file` is absent the
first access `req.file.size` throws a TypeError, which the catch block
converts to a 500. -/
def analyzeImageMin (req : Req) (readOk : Bool) (gen : GenResult)
    (fs0 : List String) : HandlerOut :=
  let fs1 := match req.file with
             | some f => insertPath f.path fs0
             | none => fs0
  match req.file with
  | none =>
      catchMin "TypeError: cannot read properties of undefined" none fs1 [] []
  | some f =>
      match readFileSync f.path f.bytes fs1 readOk with
      | Except.error m => catchMin m (some f.path) fs1 [] []
      | Except.ok bytes =>
          let base64Image := base64Encode bytes
          let prompt := promptOr req.prompt defaultPromptMin
          let call : AdapterCall :=
            ⟨"gemini-1.5-flash", [Part.text prompt, Part.inlineData f.mimetype base64Image]⟩
          match gen with
          | GenResult.error m => catchMin m (some f.path) fs1 [call] []
          | GenResult.ok t =>
              match successPathCleanup f.path fs1 with
              | Except.error m => catchMin m (some f.path) fs1 [call] []
              | Except.ok fs2 =>
                  { resp := [⟨200, Body.output t⟩],
                    fs := fs2, calls := [call], unlinks := [f.path] }

/-! ## fileFilter of the Full variant (part_000 lines 26-31) -/

/-- One invocation of the multer callback `cb`: either an error or an
acceptance `cb(null, true)`. -/
inductive CbCall where
  | err (msg : String)
  | accept
  deriving DecidableEq, Repr

/-- Embedding of the JS `String.prototype.startsWith` test used by the
fileFilter: a character-level prefix check. -/
def strStartsWith (s p : String) : Bool :=
  p.toList.isPrefixOf s.toList

/-- The fileFilter of the Full variant, as the ordered list of callback
invocations it performs. The source has no `return` after the error call,
so the acceptance call runs unconditionally afterwards. -/
def fileFilter (mimetype : String) : List CbCall :=
  (if strStartsWith mimetype "image/" = false
   then [CbCall.err "Only image files allowed"] else []) ++ [CbCall.accept]

/-! ## GET /test-gemini handlers -/

/-- Outcome of one run of a test-gemini handler: the responses sent and
an uncaught rejection, when one escapes the handler. -/
structure TestOut where
  resp : List Response
  thrown : Option String
  deriving DecidableEq, Repr

/-- The /test-gemini handler of the Full variant (part_000 lines 51-74):
try/catch around the generation call. -/
def testGeminiFull (gen : GenResult) : TestOut :=
  match gen with
  | GenResult.ok t =>
      { resp := [⟨200, Body.successOutput t⟩], thrown := none }
  | GenResult.error _ =>
      { resp := [⟨500, Body.failureError "Gemini API test failed"⟩], thrown := none }

/-- The /test-gemini handler of the Min variant (index.js lines 56-63):
no try/catch, so an upstream failure escapes as an uncaught rejection and
no response is sent by the handler. -/
def testGeminiMin (gen : GenResult) : TestOut :=
  match gen with
  | GenResult.ok t =>
      { resp := [⟨200, Body.output t⟩], thrown := none }
  | GenResult.error m =>
      { resp := [], thrown := some m }

/-! ## Multer size limit and the Express middleware stack -/

/-- Upload size limit of the Min variant (index.js line 21): 10 MB. -/
def fileSizeLimitMin : Nat := 10 * 1024 * 1024

/-- Upload size limit of the Full variant (part_000 line 25): 5 MB. -/
def fileSizeLimitFull : Nat := 5 * 1024 * 1024

/-- Outcome of the multer acceptance step for a file of a given size. -/
inductive MulterOutcome where
  | accepted
  | limitError (code : String)
  deriving DecidableEq, Repr

/-- Multer rejects a file over the configured limit with a MulterError
whose code is LIMIT_FILE_SIZE. -/
def multerCheck (size limit : Nat) : MulterOutcome :=
  if limit < size then MulterOutcome.limitError "LIMIT_FILE_SIZE"
  else MulterOutcome.accepted

/-- One layer of the Express application stack, in registration order. -/
structure StackEntry where
  isErrorHandler : Bool
  name : String
  deriving DecidableEq, Repr

/-- Registration order of the Min variant (index.js): cors (line 11), the
multer error-handling middleware (line 28), then the three routes (lines
49, 56, 68). -/
def indexStack : List StackEntry :=
  [⟨false, "cors"⟩, ⟨true, "multerErrorHandler"⟩,
   ⟨false, "route:/"⟩, ⟨false, "route:/test-gemini"⟩, ⟨false, "route:/analyze-image"⟩]

/-- Registration order of the Full variant (part_000): cors (line 17),
express.json (line 18), then the three routes (lines 44, 51, 79). It has
no error-handling middleware at all. -/
def fullStack : List StackEntry :=
  [⟨false, "cors"⟩, ⟨false, "json"⟩,
   ⟨false, "route:/"⟩, ⟨false, "route:/test-gemini"⟩, ⟨false, "route:/analyze-image"⟩]

/-- Position of the /analyze-image route (where the multer middleware
raises) in either stack. -/
def analyzeRoutePos : Nat := 4

/-- Express error dispatch: an error passed to `next(err)` at stack
position `i` is delivered to the first error-handling layer registered
after position `i`; layers registered before `i` are never revisited. -/
def firstErrorHandlerAfter (stack : List StackEntry) (i : Nat) : Option StackEntry :=
  (stack.drop (i + 1)).find? (fun e => e.isErrorHandler)

/-- Response of the multer error-handling middleware (index.js lines
31-34): a structured 400 JSON carrying the multer error code. -/
def multerErrorHandlerResponse (code : String) : Response :=
  ⟨400, Body.errorDetails "Upload error" code⟩

/-- The Express default error handler: a raw (non-JSON) 500 error page,
since a MulterError carries no status of its own. -/
def defaultHandlerResponse (code : String) : Response :=
  ⟨500, Body.raw code⟩

/-- Delivery of an error raised at stack position `i`: the first
error-handling layer after `i` handles it (here only the multer error
middleware exists, producing its 400 JSON); with none, the default handler
produces a raw 500. -/
def dispatchError (stack : List StackEntry) (i : Nat) (code : String) : Response :=
  match firstErrorHandlerAfter stack i with
  | some e =>
      if e.name = "multerErrorHandler" then multerErrorHandlerResponse code
      else defaultHandlerResponse code
  | none => defaultHandlerResponse code

/-- End-to-end response of the Min variant to a POST /analyze-image whose
upload exceeds the size limit: the MulterError raised inside the route
layer is dispatched through the stack. `none` when the size is accepted. -/
def oversizedUploadResponseMin (size : Nat) : Option Response :=
  match multerCheck size fileSizeLimitMin with
  | MulterOutcome.limitError code => some (dispatchError indexStack analyzeRoutePos code)
  | MulterOutcome.accepted => none

/-- End-to-end response of the Full variant to a POST /analyze-image whose
upload exceeds the size limit. -/
def oversizedUploadResponseFull (size : Nat) : Option Response :=
  match multerCheck size fileSizeLimitFull with
  | MulterOutcome.limitError code => some (dispatchError fullStack analyzeRoutePos code)
  | MulterOutcome.accepted => none

/-! ## Basic store lemmas -/

/-- A freshly stored path is present in the store. -/
@[simp] theorem insertPath_contains (p : String) (fs : List String) :
    (insertPath p fs).contains p = true := by
  by_cases h : p ∈ fs <;> simp [insertPath, h]

/-- A freshly stored path is a member of the store. -/
@[simp] theorem insertPath_mem (p : String) (fs : List String) :
    p ∈ insertPath p fs := by
  have h := insertPath_contains p fs
  simpa using h

/-- After removal, the path is gone from the store. -/
@[simp] theorem removePath_contains_self (p : String) (fs : List String) :
    (removePath p fs).contains p = false := by
  simp [removePath, List.mem_filter]

/-- Removal is idempotent on the store. -/
theorem removePath_idem (p : String) (fs : List String) :
    removePath p (removePath p fs) = removePath p fs := by
  simp [removePath, List.filter_filter]

/-- The catch block of the Full variant always sends exactly the fixed
500 response, whatever state it is given. -/
theorem catchFull_resp (o : Option String) (fs : List String)
    (c : List AdapterCall) (u : List String) :
    (catchFull o fs c u).resp = [⟨500, Body.error "Image analysis failed"⟩] := by
  match o with
  | none => rfl
  | some p =>
      by_cases h : existsSync p fs = true <;> simp [catchFull, h]

/-- The catch block of the Min variant always sends exactly one 500
response carrying the caught message in the details field. -/
theorem catchMin_resp (m : String) (o : Option String) (fs : List String)
    (c : List AdapterCall) (u : List String) :
    (catchMin m o fs c u).resp = [⟨500, Body.errorDetails "Gemini processing failed" m⟩] := by
  match o with
  | none => rfl
  | some p =>
      by_cases h : existsSync p fs = true <;> simp [catchMin, h]

/-- Given a store that contains the file, the catch blocks delete it and
log exactly that deletion. -/
theorem catchFull_unlinks_of_contains (p : String) (fs : List String)
    (c : List AdapterCall) (h : existsSync p fs = true) :
    (catchFull (some p) fs c []).unlinks = [p] := by
  simp [catchFull, h]

/-- Min-variant version of `catchFull_unlinks_of_contains`. -/
theorem catchMin_unlinks_of_contains (m p : String) (fs : List String)
    (c : List AdapterCall) (h : existsSync p fs = true) :
    (catchMin m (some p) fs c []).unlinks = [p] := by
  simp [catchMin, h]

/-! ## Claim theorems -/

/-- C1: whenever a temporary file is stored for an upload to POST
/analyze-image, both variants delete that file exactly once before the
handler returns, on every exit path: adapter success, adapter failure, and
an exception during the read/encode step (the deletion log is exactly
`[f.path]` in all cases). -/
theorem analyze_image_deletes_exactly_once (f : UFile) (p : Option String)
    (readOk : Bool) (gen : GenResult) (fs0 : List String) :
    (analyzeImageFull ⟨some f, p⟩ readOk gen fs0).unlinks = [f.path] ∧
    (analyzeImageMin ⟨some f, p⟩ readOk gen fs0).unlinks = [f.path] := by
  have hc := insertPath_contains f.path fs0
  cases readOk <;> cases gen <;>
    simp [analyzeImageFull, analyzeImageMin, readFileSync, successPathCleanup,
      unlinkSync, catchFull, catchMin, existsSync, hc]

/-- C10: on every execution path of the POST /analyze-image handler of
either variant — missing-file early return, success, and catch — exactly
one HTTP response is sent. -/
theorem analyze_image_single_response (req : Req) (readOk : Bool)
    (gen : GenResult) (fs0 : List String) :
    (analyzeImageFull req readOk gen fs0).resp.length = 1 ∧
    (analyzeImageMin req readOk gen fs0).resp.length = 1 := by
  obtain ⟨file, prompt⟩ := req
  cases file with
  | none =>
      exact ⟨rfl, by simp [analyzeImageMin, catchMin_resp]⟩
  | some f =>
      have hc := insertPath_contains f.path fs0
      cases readOk <;> cases gen <;>
        simp [analyzeImageFull, analyzeImageMin, readFileSync, successPathCleanup,
          unlinkSync, existsSync, hc, catchFull_resp, catchMin_resp]

/-- C3 counterexample: in the Min variant (index.js) a request with no
image file field is answered with status 500, not 400 — the handler has no
missing-file check, so the undefined-file access throws and lands in the
catch block. -/
theorem missing_file_counterexample :
    ((analyzeImageMin ⟨none, none⟩ true (GenResult.ok "hi") []).resp.map Response.status)
      = [500] ∧ (500 : Nat) ≠ 400 := by decide

/-- C3 amended: the Full variant (part_000) answers a missing image field
with status 400 and an error body, creating no temporary file; the Min
variant (index.js), which lacks the check, answers with status 500, also
creating no temporary file and deleting nothing. -/
theorem missing_file_behavior (p : Option String) (readOk : Bool)
    (gen : GenResult) (fs0 : List String) :
    (analyzeImageFull ⟨none, p⟩ readOk gen fs0).resp = [⟨400, Body.error "Image is required"⟩] ∧
    (analyzeImageFull ⟨none, p⟩ readOk gen fs0).fs = fs0 ∧
    (analyzeImageFull ⟨none, p⟩ readOk gen fs0).unlinks = [] ∧
    ((analyzeImageMin ⟨none, p⟩ readOk gen fs0).resp.map Response.status) = [500] ∧
    (analyzeImageMin ⟨none, p⟩ readOk gen fs0).fs = fs0 ∧
    (analyzeImageMin ⟨none, p⟩ readOk gen fs0).unlinks = [] := by
  refine ⟨rfl, rfl, rfl, ?_, ?_, ?_⟩ <;> simp [analyzeImageMin, catchMin]

/-- C4 counterexample: the success-path delete of both handlers is a bare
`fs.unlinkSync` with no existence check, and deleting a handle that was
never written raises rather than being a no-op. -/
theorem success_path_delete_unguarded :
    successPathCleanup "uploads/h1" [] = Except.error "ENOENT" := rfl

/-- C4 amended: the catch-path delete (`if existsSync then unlinkSync`) is
idempotent and total — deleting twice, or deleting a never-written or
already-removed handle, does not raise and leaves the store unchanged; the
success-path delete is unguarded, but in handler executions it always acts
on the still-present stored file and therefore returns without raising. -/
theorem delete_idempotent_guarded (p : String) (fs : List String) :
    guardedUnlink p (guardedUnlink p fs) = guardedUnlink p fs ∧
    (existsSync p fs = false → guardedUnlink p fs = fs) ∧
    successPathCleanup p (insertPath p fs) = Except.ok (removePath p (insertPath p fs)) := by
  refine ⟨?_, ?_, ?_⟩
  · by_cases h : p ∈ fs <;>
      simp [guardedUnlink, existsSync, h, removePath, List.mem_filter]
  · intro h
    simp [guardedUnlink, h]
  · simp [successPathCleanup, unlinkSync]

/-- C4 witness: instantiation of the amended statement at a concrete
never-written handle. -/
theorem delete_idempotent_guarded_witness :
    existsSync "h" [] = false ∧ guardedUnlink "h" [] = [] :=
  ⟨by decide, (delete_idempotent_guarded "h" []).2.1 (by decide)⟩

/-- C5: for a stored upload with prompt "describe", both variants invoke
the generation adapter exactly once, with exactly two parts in order — the
prompt text, then the inline-data part carrying the base64-encoded bytes
and the declared MIME type — and on adapter success with text `t` respond
200 with body `output t`. -/
theorem valid_upload_describe (f : UFile) (t : String) (fs0 : List String) :
    (analyzeImageFull ⟨some f, some "describe"⟩ true (GenResult.ok t) fs0).calls =
      [⟨"gemini-2.0-flash",
        [Part.text "describe", Part.inlineData f.mimetype (base64Encode f.bytes)]⟩] ∧
    (analyzeImageFull ⟨some f, some "describe"⟩ true (GenResult.ok t) fs0).resp =
      [⟨200, Body.output t⟩] ∧
    (analyzeImageMin ⟨some f, some "describe"⟩ true (GenResult.ok t) fs0).calls =
      [⟨"gemini-1.5-flash",
        [Part.text "describe", Part.inlineData f.mimetype (base64Encode f.bytes)]⟩] ∧
    (analyzeImageMin ⟨some f, some "describe"⟩ true (GenResult.ok t) fs0).resp =
      [⟨200, Body.output t⟩] := by
  have hc := insertPath_contains f.path fs0
  have hp : ∀ d : String, promptOr (some "describe") d = "describe" := fun d => rfl
  simp [analyzeImageFull, analyzeImageMin, readFileSync, successPathCleanup,
    unlinkSync, existsSync, hc, hp]

/-- C6: with an empty or missing prompt field, both variants substitute
their fixed default instruction as the text part handed to the adapter;
with a non-empty prompt, the supplied text is used unchanged. -/
theorem prompt_default_substitution (f : UFile) (t : String) (fs0 : List String)
    (p : Option String) :
    ((p = none ∨ p = some "") →
      (analyzeImageFull ⟨some f, p⟩ true (GenResult.ok t) fs0).calls =
        [⟨"gemini-2.0-flash",
          [Part.text defaultPromptFull, Part.inlineData f.mimetype (base64Encode f.bytes)]⟩] ∧
      (analyzeImageMin ⟨some f, p⟩ true (GenResult.ok t) fs0).calls =
        [⟨"gemini-1.5-flash",
          [Part.text defaultPromptMin, Part.inlineData f.mimetype (base64Encode f.bytes)]⟩]) ∧
    (∀ s : String, s ≠ "" →
      (analyzeImageFull ⟨some f, some s⟩ true (GenResult.ok t) fs0).calls =
        [⟨"gemini-2.0-flash",
          [Part.text s, Part.inlineData f.mimetype (base64Encode f.bytes)]⟩] ∧
      (analyzeImageMin ⟨some f, some s⟩ true (GenResult.ok t) fs0).calls =
        [⟨"gemini-1.5-flash",
          [Part.text s, Part.inlineData f.mimetype (base64Encode f.bytes)]⟩]) := by
  have hc := insertPath_contains f.path fs0
  constructor
  · rintro (rfl | rfl) <;>
      simp [analyzeImageFull, analyzeImageMin, readFileSync, successPathCleanup,
        unlinkSync, existsSync, hc, promptOr]
  · intro s hs
    simp [analyzeImageFull, analyzeImageMin, readFileSync, successPathCleanup,
      unlinkSync, existsSync, hc, promptOr, hs]

/-- C6 witness: instantiation at a concrete upload with a missing prompt
field. -/
theorem prompt_default_substitution_witness :
    (analyzeImageFull ⟨some ⟨"uploads/u1", "image/png", 3, [1, 2, 3]⟩, none⟩ true
        (GenResult.ok "ok") []).calls =
      [⟨"gemini-2.0-flash",
        [Part.text defaultPromptFull, Part.inlineData "image/png" (base64Encode [1, 2, 3])]⟩] ∧
    (analyzeImageMin ⟨some ⟨"uploads/u1", "image/png", 3, [1, 2, 3]⟩, none⟩ true
        (GenResult.ok "ok") []).calls =
      [⟨"gemini-1.5-flash",
        [Part.text defaultPromptMin, Part.inlineData "image/png" (base64Encode [1, 2, 3])]⟩] :=
  (prompt_default_substitution ⟨"uploads/u1", "image/png", 3, [1, 2, 3]⟩ "ok" [] none).1
    (Or.inl rfl)

/-- C7 counterexample: the Min variant (index.js) returns the upstream
error message verbatim in the `details` field of its 500 body, so the
client-visible response depends on the content of the upstream error: two
runs differing only in the upstream message produce different bodies. -/
theorem upstream_detail_leaked_counterexample :
    ((analyzeImageMin ⟨some ⟨"uploads/u1", "image/png", 3, [1, 2, 3]⟩, some "q"⟩ true
        (GenResult.error "upstream secret diagnostic") []).resp =
      [⟨500, Body.errorDetails "Gemini processing failed" "upstream secret diagnostic"⟩]) ∧
    ((analyzeImageMin ⟨some ⟨"uploads/u1", "image/png", 3, [1, 2, 3]⟩, some "q"⟩ true
        (GenResult.error "upstream secret diagnostic") []).resp ≠
     (analyzeImageMin ⟨some ⟨"uploads/u1", "image/png", 3, [1, 2, 3]⟩, some "q"⟩ true
        (GenResult.error "other diagnostic") []).resp) := by decide

/-- C7 amended: on upstream generation failure both variants respond 500;
the Full variant's body is the fixed `error "Image analysis failed"`,
independent of the upstream message, while the Min variant's body carries
the upstream message verbatim in its `details` field. -/
theorem upstream_error_response_bodies (f : UFile) (p : Option String)
    (m : String) (fs0 : List String) :
    (analyzeImageFull ⟨some f, p⟩ true (GenResult.error m) fs0).resp =
      [⟨500, Body.error "Image analysis failed"⟩] ∧
    (analyzeImageMin ⟨some f, p⟩ true (GenResult.error m) fs0).resp =
      [⟨500, Body.errorDetails "Gemini processing failed" m⟩] := by
  have hc := insertPath_contains f.path fs0
  simp [analyzeImageFull, analyzeImageMin, readFileSync, existsSync, hc,
    catchFull_resp, catchMin_resp]

/-- C8: GET /test-gemini in the Full variant (part_000) responds
`{success: true, output: t}` on success and 500
`{success: false, error: "Gemini API test failed"}` on upstream failure;
in the Min variant (index.js) it responds `{output: t}` on success, and on
upstream failure sends no response at all — the rejection escapes the
handler uncaught. -/
theorem test_gemini_response_shapes (t m : String) :
    testGeminiFull (GenResult.ok t) = ⟨[⟨200, Body.successOutput t⟩], none⟩ ∧
    testGeminiFull (GenResult.error m) =
      ⟨[⟨500, Body.failureError "Gemini API test failed"⟩], none⟩ ∧
    testGeminiMin (GenResult.ok t) = ⟨[⟨200, Body.output t⟩], none⟩ ∧
    testGeminiMin (GenResult.error m) = ⟨[], some m⟩ :=
  ⟨rfl, rfl, rfl, rfl⟩

/-- C9: the Full variant's fileFilter invokes the error callback for a
file whose MIME type does not start with "image/", then falls through and
invokes the acceptance callback as well — so every upload gets an
acceptance call as the filter's last word, and non-image uploads see the
callback invoked twice. -/
theorem file_filter_double_callback (m : String) :
    (fileFilter m).getLast? = some CbCall.accept ∧
    (strStartsWith m "image/" = false →
      fileFilter m = [CbCall.err "Only image files allowed", CbCall.accept]) ∧
    (strStartsWith m "image/" = true → fileFilter m = [CbCall.accept]) := by
  cases hs : strStartsWith m "image/" <;> simp [fileFilter, hs]

/-- C9 witness: a non-image MIME type at which the filter first rejects
and then accepts. -/
theorem file_filter_double_callback_witness :
    strStartsWith "text/plain" "image/" = false ∧
    fileFilter "text/plain" = [CbCall.err "Only image files allowed", CbCall.accept] :=
  ⟨by decide, (file_filter_double_callback "text/plain").2.1 (by decide)⟩

/-- C2: evaluation at the failing inputs. An 11 MB upload in the Min
variant (10 MB limit) raises LIMIT_FILE_SIZE inside the /analyze-image
route layer, but the multer error middleware is registered before the
routes, so Express finds no error handler after the raising layer and the
default handler surfaces a raw 500 — not the structured 400 JSON the
middleware would produce. A 6 MB upload in the Full variant (5 MB limit,
no error middleware at all) fares the same. -/
theorem oversized_upload_uncaught :
    multerCheck (11 * 1024 * 1024) fileSizeLimitMin =
      MulterOutcome.limitError "LIMIT_FILE_SIZE" ∧
    indexStack[1]? = some ⟨true, "multerErrorHandler"⟩ ∧
    firstErrorHandlerAfter indexStack analyzeRoutePos = none ∧
    oversizedUploadResponseMin (11 * 1024 * 1024) =
      some (defaultHandlerResponse "LIMIT_FILE_SIZE") ∧
    multerCheck (6 * 1024 * 1024) fileSizeLimitFull =
      MulterOutcome.limitError "LIMIT_FILE_SIZE" ∧
    firstErrorHandlerAfter fullStack analyzeRoutePos = none ∧
    oversizedUploadResponseFull (6 * 1024 * 1024) =
      some (defaultHandlerResponse "LIMIT_FILE_SIZE") ∧
    (defaultHandlerResponse "LIMIT_FILE_SIZE").status = 500 ∧
    defaultHandlerResponse "LIMIT_FILE_SIZE" ≠
      multerErrorHandlerResponse "LIMIT_FILE_SIZE" := by decide

end GeminiBackend
